import Mathlib

/-!
Verification of the Lavio AI browser assistant (intent classification in
the background service, element cataloguing and scoring in the element
detector, and action validation/execution in the action executor).

Strings from the JavaScript source are embedded as `List Char`; the
lowercase conversion, substring test and whitespace split used by the
code are modelled explicitly.  JavaScript numbers that matter to the
claims are embedded as `ℚ`; `Option ℚ` is used where a value can be
absent (`undefined`) or `NaN`, with `none` standing for both, since the
code paths involved never distinguish them.
-/

/-- JavaScript `String.prototype.toLowerCase` restricted to the ASCII
range used by the keyword tables. -/
def jsToLower (l : List Char) : List Char := l.map Char.toLower

/-- JavaScript `String.prototype.includes`: `pat` occurs contiguously in
`hay`. -/
def includes (hay pat : List Char) : Bool := decide (pat <:+: hay)

/-- Accumulator-based splitter: cut the list at every whitespace
character (empty pieces appear for runs, they are irrelevant to the
scoring which only looks at pieces of length       greater than 2). -/
def splitWsAux : List Char → List Char → List (List Char)
| cur, [] => [cur.reverse]
| cur, c :: rest =>
  if c.isWhitespace then cur.reverse :: splitWsAux [] rest
  else splitWsAux (c :: cur) rest

/-- JavaScript `description.split(/\s+/)` up to empty pieces, which
contribute nothing to any score. -/
def jsSplitWs (l : List Char) : List (List Char) := splitWsAux [] l

/-- JavaScript truthiness of a possibly-absent string: `undefined`,
`null` and `""` are falsy. -/
def truthy : Option (List Char) → Bool
| none => false
| some s => !s.isEmpty

/-- `Math.max(x, q)` where `x` may be `undefined` or `NaN` (`none`):
`Math.max(undefined, q)` and `Math.max(NaN, q)` are both `NaN`. -/
def jsMax : Option ℚ → ℚ → Option ℚ
| none, _ => none
| some c, q => some (max c q)

/-- The intent object produced by `detectActionIntent` in the background
service (`background.js`).  `confidence` is `none` when the parsed JSON
had no numeric confidence or when an arithmetic step produced `NaN`. -/
structure Intent where
  isAction : Bool
  confidence : Option ℚ
  actionType : Option (List Char)
  targetDescription : Option (List Char)
  additionalData : Option (List Char)
  reasoning : Option (List Char)

/-- Information-request keywords of the heuristic-override stage (the
`informationKeywords` array inside the successful-parse branch). -/
def overrideInfoKeywords : List (List Char) :=
  ["tell me".data, "what is".data, "what are".data, "what does".data,
   "how does".data, "why does".data, "explain".data, "describe".data,
   "summarize".data, "which".data, "who".data, "when".data, "where".data,
   "about this page".data, "about the page".data, "most views".data,
   "most likes".data, "most popular".data, "find the".data,
   "show me the".data]

/-- Action keywords of the heuristic-override stage (the
`actionKeywords` array inside the successful-parse branch). -/
def overrideActionKeywords : List (List Char) :=
  ["click on".data, "press on".data, "tap on".data, "scroll".data,
   "type".data, "enter".data, "focus on".data, "go back".data,
   "go forward".data, "make text".data, "make the text".data,
   "text larger".data, "text smaller".data, "text bigger".data,
   "text size".data, "font size".data, "bigger text".data,
   "smaller text".data, "increase text".data, "decrease text".data,
   "reduce text".data, "reset text".data, "normal text".data,
   "default text".data, "dark mode".data, "light mode".data,
   "enable dark".data, "disable dark".data, "hide ads".data,
   "hide sidebar".data, "show ads".data, "change background".data,
   "change color".data, "zoom in".data, "zoom out".data,
   "reset page".data, "reader mode".data, "focus mode".data,
   "can you make".data, "can you change".data, "can you hide".data]

/-- Information-request keywords of the parse-failure fallback stage
(the `informationKeywords` array inside the `catch (parseError)`
branch). -/
def fallbackInfoKeywords : List (List Char) :=
  ["tell me".data, "what is".data, "what are".data, "what does".data,
   "how does".data, "why does".data, "explain".data, "describe".data,
   "summarize".data, "which".data, "who".data, "when".data, "where".data,
   "about".data, "most views".data, "most likes".data,
   "most popular".data, "find the".data, "show me the".data]

/-- Action keywords of the parse-failure fallback stage (the
`actionKeywords` array inside the `catch (parseError)` branch). -/
def fallbackActionKeywords : List (List Char) :=
  ["click on".data, "press on".data, "tap on".data, "scroll".data,
   "go back".data, "go forward".data, "navigate".data, "refresh".data,
   "reload".data, "type in".data, "type into".data, "focus on".data,
   "make text".data, "make the text".data, "text larger".data,
   "text smaller".data, "text bigger".data, "text size".data,
   "font size".data, "bigger text".data, "smaller text".data,
   "increase text".data, "decrease text".data, "reduce text".data,
   "reset text".data, "normal text".data, "default text".data,
   "dark mode".data, "light mode".data, "hide ads".data,
   "change background".data, "change color".data, "zoom in".data,
   "zoom out".data, "can you make".data, "can you change".data,
   "can you hide".data]

/-- `keywords.some((keyword) => lowerInput.includes(keyword))`. -/
def hasKeyword (ks : List (List Char)) (lowerInput : List Char) : Bool :=
  ks.any fun k => includes lowerInput k

/-- The consistency-repair step: `if (intent.actionType &&
!intent.isAction)` force `isAction`, raise `confidence` via
`Math.max(intent.confidence, 0.8)` and overwrite `reasoning`. -/
def repairStep (p : Intent) : Intent :=
  if truthy p.actionType && !p.isAction then
    { p with isAction := true,
             confidence := jsMax p.confidence (4/5),
             reasoning := some "Fixed: actionType detected".data }
  else p

/-- The heuristic-override stage, entered when the (repaired) intent has
`isAction == false`: an information keyword keeps the intent unchanged,
otherwise a strong action keyword flips it to an action. -/
def heuristicOverride (userInput : List Char) (p : Intent) : Intent :=
  let lowerInput := jsToLower userInput
  if hasKeyword overrideInfoKeywords lowerInput then p
  else if hasKeyword overrideActionKeywords lowerInput then
    { p with isAction := true,
             confidence := jsMax p.confidence (7/10),
             reasoning :=
               some "Overridden - detected as action via heuristics".data }
  else p

/-- The parse-failure fallback: classify by keywords alone, with a fixed
low confidence of 0.3 and no action details. -/
def fallbackIntent (userInput : List Char) : Intent :=
  let lowerInput := jsToLower userInput
  let isInformationRequest := hasKeyword fallbackInfoKeywords lowerInput
  let hasActionKeyword := hasKeyword fallbackActionKeywords lowerInput
  let isLikelyAction := hasActionKeyword && !isInformationRequest
  { isAction := isLikelyAction,
    confidence := some (3/10),
    actionType := none,
    targetDescription := none,
    additionalData := none,
    reasoning := some "Failed to parse AI response, using heuristics".data }

/-- The model-error fallback in the outer `catch (error)`. -/
def errorIntent (msg : List Char) : Intent :=
  { isAction := false,
    confidence := some 0,
    actionType := none,
    targetDescription := none,
    additionalData := none,
    reasoning := some ("Error: ".data ++ msg) }

/-- Outcome of parsing the model's textual response: either no object
with a boolean `isAction` field could be extracted, or an intent object
was obtained. -/
inductive ParseOutcome
| fail
| parsed (p : Intent)

/-- Outcome of the generative-model collaborator call: the call threw
with a message, or it returned a response with the given parse
outcome. -/
inductive ModelResult
| err (msg : List Char)
| ok (r : ParseOutcome)

/-- `detectActionIntent`, as a function of the utterance and of the
model-call outcome: repair, then heuristic override when not an action,
with the parse-failure and model-error fallbacks. -/
def detectActionIntent (userInput : List Char) (m : ModelResult) : Intent :=
  match m with
  | .err msg => errorIntent msg
  | .ok .fail => fallbackIntent userInput
  | .ok (.parsed pRaw) =>
    let p := repairStep pRaw
    if !p.isAction then heuristicOverride userInput p else p

/-- A DOM node as seen by the element detector: its `id` attribute, its
`className`, the text computed by `getElementText` (already truncated to
100 characters by that helper), and an abstract identity tag
distinguishing physical nodes. -/
structure DomNode where
  domId : List Char
  className : List Char
  displayText : List Char
  nodeTag : Nat
deriving DecidableEq

/-- One step of JavaScript `.replace(/\s+/g, "_")`: every maximal
whitespace run becomes a single underscore; the flag records whether the
previous character was whitespace. -/
def squashWsAux : Bool → List Char → List Char
| _, [] => []
| prevWs, c :: rest =>
  if c.isWhitespace then
    if prevWs then squashWsAux true rest
    else '_' :: squashWsAux true rest
  else c :: squashWsAux false rest

/-- Characters kept by `.replace(/[^a-zA-Z0-9_]/g, "")`. -/
def isIdChar (c : Char) : Bool :=
  ('a' ≤ c && c ≤ 'z') || ('A' ≤ c && c ≤ 'Z') || ('0' ≤ c && c ≤ '9')
    || c = '_'

/-- `generateUniqueId(element, type, index)` from `element-detector.js`:
join type, id, className, the first 20 characters of the element text
and the pass-local index with underscores, squash whitespace, drop
non-identifier characters. -/
def generateUniqueId (n : DomNode) (ty : List Char) (index : Nat) :
    List Char :=
  (squashWsAux false
    (ty ++ "_".data ++ n.domId ++ "_".data ++ n.className ++ "_".data
      ++ n.displayText.take 20 ++ "_".data
      ++ (toString index).data)).filter isIdChar

/-- An entry of the interactive-element catalog: the pass kind
(`"search"`, `"button"`, `"link"` or `"input"`), the underlying node and
the derived unique key. -/
structure CatalogEntry where
  kind : List Char
  node : DomNode
  uniqueId : List Char
deriving DecidableEq

/-- One detection pass: each found node becomes an entry tagged with the
pass kind and its pass-local index (the `forEach` index used by
`generateUniqueId`). -/
def passEntries (kind : List Char) (nodes : List DomNode) :
    List CatalogEntry :=
  nodes.enum.map fun p =>
    { kind := kind, node := p.2, uniqueId := generateUniqueId p.2 kind p.1 }

/-- The `seen`-set filter of `getAllInteractiveElements`: keep an entry
only if its `uniqueId` has not been seen before. -/
def dedupAux : List (List Char) → List CatalogEntry → List CatalogEntry
| _, [] => []
| seen, e :: rest =>
  if e.uniqueId ∈ seen then dedupAux seen rest
  else e :: dedupAux (e.uniqueId :: seen) rest

/-- `getAllInteractiveElements`, as a function of the visible nodes each
detection pass found (search bars, buttons, links, inputs, in the
concatenation order of the source): combine, then deduplicate by
`uniqueId`. -/
def getAllInteractiveElements
    (searchNodes buttonNodes linkNodes inputNodes : List DomNode) :
    List CatalogEntry :=
  dedupAux []
    (passEntries "search".data searchNodes
      ++ passEntries "button".data buttonNodes
      ++ passEntries "link".data linkNodes
      ++ passEntries "input".data inputNodes)

/-- A catalog element as consumed by `calculateMatchScore`: the detected
kind and the optional text, label, placeholder and aria-label fields. -/
structure PageElement where
  kind : List Char
  text : Option (List Char)
  label : Option (List Char)
  placeholder : Option (List Char)
  ariaLabel : Option (List Char)

/-- JavaScript `a || b` on possibly-absent strings. -/
def jsOrStr (a b : Option (List Char)) : Option (List Char) :=
  if truthy a then a else b

/-- `(element.text || element.label || element.placeholder ||
"").toLowerCase()` from `calculateMatchScore`. -/
def elementTextOf (el : PageElement) : List Char :=
  jsToLower ((jsOrStr el.text (jsOrStr el.label el.placeholder)).getD [])

/-- The number of words of the description that score a 0.1 partial
match against the element text: `elementText.includes(word) &&
word.length > 2`. -/
def matchedWordCount (elementText description : List Char) : ℕ :=
  ((jsSplitWs description).filter fun w =>
    includes elementText w && decide (w.length > 2)).length

/-- The `+= 0.3` contribution for `description.includes(element.type)`. -/
def typeScore (el : PageElement) (description : List Char) : ℚ :=
  if includes description el.kind then 3/10 else 0

/-- The text contribution: 0.5 for a full containment of the element
text, otherwise 0.1 per partially matching word. -/
def textScore (el : PageElement) (description : List Char) : ℚ :=
  let elementText := elementTextOf el
  if !elementText.isEmpty && includes description elementText then 1/2
  else if !elementText.isEmpty then
    (matchedWordCount elementText description : ℚ) * (1/10)
  else 0

/-- The `+= 0.4` contribution for an aria-label contained in the
description. -/
def ariaScore (el : PageElement) (description : List Char) : ℚ :=
  let ariaLabel := jsToLower (el.ariaLabel.getD [])
  if !ariaLabel.isEmpty && includes description ariaLabel then 2/5 else 0

/-- The `+= 0.3` contribution for a placeholder contained in the
description. -/
def placeholderScore (el : PageElement) (description : List Char) : ℚ :=
  let placeholder := jsToLower (el.placeholder.getD [])
  if !placeholder.isEmpty && includes description placeholder then 3/10
  else 0

/-- The `+= 0.4` search bonus. -/
def searchBonus (el : PageElement) (description : List Char) : ℚ :=
  if (el.kind == "search".data) && includes description "search".data then
    2/5
  else 0

/-- `calculateMatchScore(element, description)`: the accumulated score,
capped at 1.0. -/
def calculateMatchScore (el : PageElement) (description : List Char) : ℚ :=
  min (typeScore el description + textScore el description
    + ariaScore el description + placeholderScore el description
    + searchBonus el description) 1

/-- The state of an input element that `executeType` mutates. -/
structure InputElement where
  value : List Char
  focused : Bool
deriving DecidableEq

/-- The options object accepted by `executeType`. -/
structure TypeOptions where
  highlight : Option Bool
  delay : Option ℚ
  clear : Option Bool

/-- The result object returned by `executeType`. -/
structure TypeResult where
  success : Bool
  error : Option (List Char)
  action : Option (List Char)
  text : Option (List Char)
deriving DecidableEq

/-- `executeType(element, text, options)` from `action-executor.js`,
modelled on the element state: highlight, scroll and focus leave the
value unchanged; `options.clear !== false` clears the value; the value
is then overwritten with `text` unconditionally. -/
def executeType (element : Option InputElement) (text : List Char)
    (options : TypeOptions) : Option InputElement × TypeResult :=
  match element with
  | none =>
    (none, { success := false, error := some "Element not found".data,
             action := none, text := none })
  | some el0 =>
    let el1 := { el0 with focused := true }
    let el2 := if options.clear ≠ some false then { el1 with value := [] }
      else el1
    let el3 := { el2 with value := text }
    (some el3, { success := true, error := none,
                 action := some "type".data, text := some text })

/-- The element features consulted by `validateAction`: the tag name,
the optional `type` property, and whether `document.body` still
contains the element. -/
structure TargetElement where
  tagName : List Char
  elType : Option (List Char)
  inDocument : Bool
deriving DecidableEq

/-- The result object of `validateAction`. -/
structure ValidationResult where
  safe : Bool
  needsConfirmation : Bool
  reason : Option (List Char)
deriving DecidableEq

/-- The whitelist of `validateAction`. -/
def safeActions : List (List Char) :=
  ["click".data, "scroll".data, "focus".data, "type".data]

/-- `validateAction(actionType, element)` from `action-executor.js`:
whitelist check, presence check (scroll needs no element), in-document
check, then the sensitive-element rules (file inputs blocked; password
fields and submit buttons allowed with confirmation). -/
def validateAction (actionType : List Char)
    (element : Option TargetElement) : ValidationResult :=
  if ¬ (actionType ∈ safeActions) then
    { safe := false, needsConfirmation := false,
      reason := some ("Action type \"".data ++ actionType
        ++ "\" is not whitelisted".data) }
  else if actionType ≠ "scroll".data ∧ element = none then
    { safe := false, needsConfirmation := false,
      reason := some "Target element not found".data }
  else
    match element with
    | none => { safe := true, needsConfirmation := false, reason := none }
    | some el =>
      if !el.inDocument then
        { safe := false, needsConfirmation := false,
          reason := some "Element is no longer in document".data }
      else
        let tagName := jsToLower el.tagName
        let ty := el.elType.map jsToLower
        if tagName = "input".data ∧ ty = some "file".data then
          { safe := false, needsConfirmation := false,
            reason := some "File inputs are not allowed".data }
        else if tagName = "input".data ∧ ty = some "password".data then
          { safe := true, needsConfirmation := true,
            reason := some "Action involves password field".data }
        else if (tagName = "button".data ∧ ty = some "submit".data)
            ∨ (tagName = "input".data ∧ ty = some "submit".data) then
          { safe := true, needsConfirmation := true,
            reason := some "Action will submit a form".data }
        else { safe := true, needsConfirmation := false, reason := none }

/-- A sample intent for a model response lacking the `actionType`
field. -/
def questionIntent : Intent :=
  { isAction := false, confidence := some (9/10), actionType := none,
    targetDescription := none, additionalData := none,
    reasoning := some "This is a question".data }

/-- A parsed response with `isAction == false` and the non-null but
empty (hence falsy) `actionType` `""`. -/
def emptyActionTypeIntent : Intent :=
  { isAction := false, confidence := some 1, actionType := some [],
    targetDescription := none, additionalData := none,
    reasoning := some "This is a question".data }

/-- The utterance of end-to-end scenario 1. -/
def scenarioUtterance : List Char :=
  "can you tell me which post has the most views".data

/-- A stage-1 model response that parses successfully with
`isAction == true`. -/
def parsedActionResponse : Intent :=
  { isAction := true, confidence := some (19/20),
    actionType := some "click".data, targetDescription := some "post".data,
    additionalData := none, reasoning := some "Click action".data }

/-- A parsed response with an `actionType` but no numeric confidence
field. -/
def noConfidenceResponse : Intent :=
  { isAction := false, confidence := none, actionType := some "click".data,
    targetDescription := some "search button".data, additionalData := none,
    reasoning := some "Click action".data }

/-- `noConfidenceResponse` with a numeric confidence of 0.5. -/
def halfConfidenceResponse : Intent :=
  { noConfidenceResponse with confidence := some (1/2) }

/-- A search input node: found both by the search-bar pass and by the
input pass of the catalog scan. -/
def sharedNode : DomNode :=
  { domId := "q".data, className := "box".data, displayText := [],
    nodeTag := 0 }

/-- A button whose display text consists of six words of three
letters. -/
def sixWordButton : PageElement :=
  { kind := "button".data, text := some "abc def ghi jkl mno pqr".data,
    label := none, placeholder := none, ariaLabel := none }

/-- A description containing all six words of `sixWordButton`'s text,
in reverse order (so the full text is not contained). -/
def sixWordDescription : List Char := "pqr mno jkl ghi def abc".data

/-- A small button element for concrete score computations. -/
def okButton : PageElement :=
  { kind := "button".data, text := some "ok".data, label := none,
    placeholder := none, ariaLabel := none }

/-- A file input that is still attached to the document. -/
def fileInputElement : TargetElement :=
  { tagName := "INPUT".data, elType := some "file".data,
    inDocument := true }

example : includes (jsToLower "Tell Me which".data) "tell me".data = true := by
  decide

example :
    hasKeyword fallbackInfoKeywords (jsToLower "scroll to the bottom".data)
      = false := by decide

example :
    hasKeyword fallbackActionKeywords (jsToLower "scroll to the bottom".data)
      = true := by decide

/-- If the repair step leaves `isAction == false`, the intent passed
through unchanged and its `actionType` was falsy. -/
theorem repairStep_falsy (p : Intent)
    (h : (repairStep p).isAction = false) :
    truthy (repairStep p).actionType = false := by
  unfold repairStep at h ⊢
  by_cases hc : (truthy p.actionType && !p.isAction) = true
  · rw [if_pos hc] at h
    exact absurd h (by simp)
  · rw [if_neg hc] at h ⊢
    cases htr : truthy p.actionType
    · rfl
    · exact absurd (by simp [htr, h]) hc

/-- The heuristic-override stage never changes `actionType`. -/
theorem heuristicOverride_actionType (u : List Char) (p : Intent) :
    (heuristicOverride u p).actionType = p.actionType := by
  simp only [heuristicOverride]
  split
  · rfl
  · split <;> rfl

/-- The heuristic-override stage either sets `isAction := true` or
returns the intent unchanged. -/
theorem heuristicOverride_cases (u : List Char) (p : Intent) :
    (heuristicOverride u p).isAction = true ∨ heuristicOverride u p = p := by
  simp only [heuristicOverride]
  split
  · exact Or.inr rfl
  · split
    · exact Or.inl rfl
    · exact Or.inr rfl

/-- C1 counterexample: for the utterance "tell me" and a parsed model
response with `actionType == ""` (non-null) and `isAction == false`,
`detectActionIntent` returns an Intent whose `actionType` is non-null
while `isAction == false` — the claimed invariant `actionType != null ⇒
isAction == true` fails, because the repair step tests JavaScript
truthiness and the empty string is falsy. -/
theorem detect_nonnull_actionType_not_action :
    (detectActionIntent "tell me".data
        (.ok (.parsed emptyActionTypeIntent))).actionType ≠ none
    ∧ (detectActionIntent "tell me".data
        (.ok (.parsed emptyActionTypeIntent))).isAction = false := by
  constructor
  · intro h
    exact Option.noConfusion
      ((rfl : (detectActionIntent "tell me".data
        (.ok (.parsed emptyActionTypeIntent))).actionType = some []) ▸ h)
  · rfl

/-- C1 (amended): every Intent returned by `detectActionIntent`, on
every return path, satisfies: `actionType` truthy (non-null and
non-empty) implies `isAction == true`. -/
theorem detect_truthy_actionType_implies_action
    (u : List Char) (m : ModelResult)
    (h : truthy (detectActionIntent u m).actionType = true) :
    (detectActionIntent u m).isAction = true := by
  cases m with
  | err msg => simp [detectActionIntent, errorIntent, truthy] at h
  | ok r =>
    cases r with
    | fail => simp [detectActionIntent, fallbackIntent, truthy] at h
    | parsed p =>
      simp only [detectActionIntent] at h ⊢
      cases hq : (repairStep p).isAction with
      | true => simp [hq]
      | false =>
        have hfalsy := repairStep_falsy p hq
        simp only [hq, Bool.not_false, if_true] at h ⊢
        rcases heuristicOverride_cases u (repairStep p) with hh | hh
        · exact hh
        · rw [hh] at h
          exact absurd h (by simp [hfalsy])

/-- Witness for the amended C1 at a concrete parsed action response. -/
theorem detect_truthy_actionType_implies_action_witness :
    truthy (detectActionIntent "x".data
      (.ok (.parsed parsedActionResponse))).actionType = true
    ∧ (detectActionIntent "x".data
      (.ok (.parsed parsedActionResponse))).isAction = true :=
  ⟨by decide, detect_truthy_actionType_implies_action _ _ (by decide)⟩

/-- C2: for every utterance whose lowercased text contains an
information keyword of the relevant stage, the heuristic-override stage
keeps `isAction == false` (both in isolation and on the full
`detectActionIntent` path), and the parse-failure fallback classifies as
a question — information keywords take precedence over any action
keywords also present. -/
theorem information_keywords_precedence (u : List Char) :
    (∀ p : Intent, p.isAction = false →
      hasKeyword overrideInfoKeywords (jsToLower u) = true →
      (heuristicOverride u p).isAction = false)
    ∧ (∀ p : Intent, (repairStep p).isAction = false →
      hasKeyword overrideInfoKeywords (jsToLower u) = true →
      (detectActionIntent u (.ok (.parsed p))).isAction = false)
    ∧ (hasKeyword fallbackInfoKeywords (jsToLower u) = true →
      (detectActionIntent u (.ok .fail)).isAction = false) := by
  refine ⟨?_, ?_, ?_⟩
  · intro p hp hinfo
    simp [heuristicOverride, hinfo, hp]
  · intro p hrep hinfo
    simp [detectActionIntent, hrep, heuristicOverride, hinfo]
  · intro hinfo
    simp [detectActionIntent, fallbackIntent, hinfo]

/-- Witness for C2: an utterance containing the information keywords
"tell me" and "which" together with the action keyword "click on" is
kept as a question by both stages. -/
theorem information_keywords_precedence_witness :
    hasKeyword overrideInfoKeywords
      (jsToLower "tell me which to click on".data) = true
    ∧ hasKeyword fallbackInfoKeywords
      (jsToLower "tell me which to click on".data) = true
    ∧ hasKeyword overrideActionKeywords
      (jsToLower "tell me which to click on".data) = true
    ∧ hasKeyword fallbackActionKeywords
      (jsToLower "tell me which to click on".data) = true
    ∧ (heuristicOverride "tell me which to click on".data
        questionIntent).isAction = false
    ∧ (detectActionIntent "tell me which to click on".data
        (.ok .fail)).isAction = false :=
  ⟨by decide, by decide, by decide, by decide,
   (information_keywords_precedence "tell me which to click on".data).1
     questionIntent rfl (by decide),
   (information_keywords_precedence "tell me which to click on".data).2.2
     (by decide)⟩

/-- C3 counterexample: for the utterance "can you tell me which post has
the most views" and a stage-1 response that parses with
`isAction == true`, `detectActionIntent` returns `isAction == true` —
the information keywords are only consulted when the parsed intent says
it is not an action, so the claim "isAction == false for every possible
stage-1 model response" fails. -/
theorem scenario1_parsed_action_not_overridden :
    (detectActionIntent scenarioUtterance
      (.ok (.parsed parsedActionResponse))).isAction = true := rfl

/-- C3 (amended): for the utterance "can you tell me which post has the
most views", `detectActionIntent` returns `isAction == false` for every
stage-1 model response that fails to parse and for every response that
parses with `isAction == false` and a falsy `actionType`, due to the
information keywords "tell me" and "which". -/
theorem scenario1_question (p : Intent) (hp : p.isAction = false)
    (ha : truthy p.actionType = false) :
    (detectActionIntent scenarioUtterance (.ok .fail)).isAction = false
    ∧ (detectActionIntent scenarioUtterance
        (.ok (.parsed p))).isAction = false := by
  constructor
  · simp [detectActionIntent, fallbackIntent,
      show hasKeyword fallbackInfoKeywords (jsToLower scenarioUtterance)
        = true from by decide]
  · have hrep : repairStep p = p := by
      simp [repairStep, ha]
    simp [detectActionIntent, hrep, hp, heuristicOverride,
      show hasKeyword overrideInfoKeywords (jsToLower scenarioUtterance)
        = true from by decide]

/-- Witness for the amended C3 at a concrete parsed question
response. -/
theorem scenario1_question_witness :
    questionIntent.isAction = false
    ∧ truthy questionIntent.actionType = false
    ∧ (detectActionIntent scenarioUtterance (.ok .fail)).isAction = false
    ∧ (detectActionIntent scenarioUtterance
        (.ok (.parsed questionIntent))).isAction = false :=
  ⟨rfl, rfl, (scenario1_question questionIntent rfl rfl).1,
   (scenario1_question questionIntent rfl rfl).2⟩

/-- C4 counterexample: when the parsed response has
`actionType == "click"`, `isAction == false` and no numeric confidence,
the repair step runs `Math.max(undefined, 0.8)`, which is `NaN` — the
returned confidence is not a number at all, so "confidence greater than
or equal to 0.8" fails for parsed responses without a numeric confidence
field. -/
theorem repair_no_confidence_nan :
    (detectActionIntent "click the search button".data
      (.ok (.parsed noConfidenceResponse))).isAction = true
    ∧ (detectActionIntent "click the search button".data
      (.ok (.parsed noConfidenceResponse))).confidence = none
    ∧ ¬ ∃ c : ℚ, (detectActionIntent "click the search button".data
        (.ok (.parsed noConfidenceResponse))).confidence = some c
        ∧ 4/5 ≤ c := by
  have h2 : (detectActionIntent "click the search button".data
      (.ok (.parsed noConfidenceResponse))).confidence = none := rfl
  refine ⟨rfl, h2, ?_⟩
  rintro ⟨c, hc, -⟩
  rw [h2] at hc
  exact Option.noConfusion hc

/-- C4 (amended): for every parsed model response whose `actionType` is
truthy, whose `isAction` is false and whose confidence is a number, the
repair step makes `detectActionIntent` return `isAction == true`,
a numeric confidence of at least 0.8, and the overwritten reasoning. -/
theorem repair_forces_action (u : List Char) (p : Intent) (c : ℚ)
    (ha : truthy p.actionType = true) (hi : p.isAction = false)
    (hc : p.confidence = some c) :
    (detectActionIntent u (.ok (.parsed p))).isAction = true
    ∧ (∃ c2 : ℚ, (detectActionIntent u (.ok (.parsed p))).confidence
        = some c2 ∧ 4/5 ≤ c2)
    ∧ (detectActionIntent u (.ok (.parsed p))).reasoning
        = some "Fixed: actionType detected".data := by
  have hrep : repairStep p =
      { p with isAction := true,
               confidence := jsMax p.confidence (4/5),
               reasoning := some "Fixed: actionType detected".data } := by
    unfold repairStep
    rw [if_pos (by simp [ha, hi])]
  have hd : detectActionIntent u (.ok (.parsed p)) = repairStep p := by
    simp [detectActionIntent, hrep]
  rw [hd, hrep]
  exact ⟨rfl, ⟨max c (4/5), by simp [hc, jsMax], le_max_right _ _⟩, rfl⟩

/-- Witness for the amended C4 at a concrete parsed response with
confidence 0.5. -/
theorem repair_forces_action_witness :
    truthy halfConfidenceResponse.actionType = true
    ∧ halfConfidenceResponse.isAction = false
    ∧ halfConfidenceResponse.confidence = some (1/2)
    ∧ ((detectActionIntent "x".data
        (.ok (.parsed halfConfidenceResponse))).isAction = true
      ∧ (∃ c2 : ℚ, (detectActionIntent "x".data
          (.ok (.parsed halfConfidenceResponse))).confidence = some c2
          ∧ 4/5 ≤ c2)
      ∧ (detectActionIntent "x".data
          (.ok (.parsed halfConfidenceResponse))).reasoning
          = some "Fixed: actionType detected".data) :=
  ⟨by decide, rfl, rfl,
   repair_forces_action "x".data _ (1/2) (by decide) rfl rfl⟩

/-- C5: on every parse failure, `detectActionIntent` returns exactly the
fallback Intent: `isAction` is "has an action keyword and no information
keyword", confidence is exactly 0.3 and the action fields are all null;
in particular "scroll to the bottom" yields `isAction == true` with
confidence 0.3. -/
theorem fallback_heuristic_classification :
    (∀ u : List Char, detectActionIntent u (.ok .fail) =
      { isAction := hasKeyword fallbackActionKeywords (jsToLower u)
          && !(hasKeyword fallbackInfoKeywords (jsToLower u)),
        confidence := some (3/10), actionType := none,
        targetDescription := none, additionalData := none,
        reasoning :=
          some "Failed to parse AI response, using heuristics".data })
    ∧ (detectActionIntent "scroll to the bottom".data
        (.ok .fail)).isAction = true
    ∧ (detectActionIntent "scroll to the bottom".data
        (.ok .fail)).confidence = some (3/10) :=
  ⟨fun _ => rfl, by decide, rfl⟩

/-- C6: whenever the collaborator call itself throws, the returned
Intent is the non-action zero-confidence fallback whose reasoning
contains the error's message text. -/
theorem model_error_fail_safe (u msg : List Char) :
    (detectActionIntent u (.err msg)).isAction = false
    ∧ (detectActionIntent u (.err msg)).confidence = some 0
    ∧ (detectActionIntent u (.err msg)).actionType = none
    ∧ (detectActionIntent u (.err msg)).targetDescription = none
    ∧ (detectActionIntent u (.err msg)).additionalData = none
    ∧ ∃ s, (detectActionIntent u (.err msg)).reasoning = some s
        ∧ includes s msg = true := by
  refine ⟨rfl, rfl, rfl, rfl, rfl, "Error: ".data ++ msg, rfl, ?_⟩
  unfold includes
  exact decide_eq_true ⟨"Error: ".data, [], by simp⟩

/-- Every entry produced by the deduplication filter has a `uniqueId`
outside the initial seen set. -/
theorem dedupAux_not_mem_seen (es : List CatalogEntry) :
    ∀ (seen : List (List Char)) (e : CatalogEntry),
      e ∈ dedupAux seen es → e.uniqueId ∉ seen := by
  induction es with
  | nil => intro seen e h; simp [dedupAux] at h
  | cons a rest ih =>
    intro seen e h
    simp only [dedupAux] at h
    by_cases hm : a.uniqueId ∈ seen
    · rw [if_pos hm] at h
      exact ih seen e h
    · rw [if_neg hm] at h
      rcases List.mem_cons.mp h with rfl | h2
      · exact hm
      · intro hs
        exact ih _ e h2 (List.mem_cons_of_mem _ hs)

/-- The deduplication filter never emits two entries with the same
`uniqueId`. -/
theorem dedupAux_uniqueIds_nodup (es : List CatalogEntry) :
    ∀ seen : List (List Char),
      ((dedupAux seen es).map CatalogEntry.uniqueId).Nodup := by
  induction es with
  | nil => intro seen; simp [dedupAux]
  | cons a rest ih =>
    intro seen
    simp only [dedupAux]
    by_cases hm : a.uniqueId ∈ seen
    · rw [if_pos hm]
      exact ih seen
    · rw [if_neg hm]
      simp only [List.map_cons, List.nodup_cons]
      refine ⟨?_, ih _⟩
      intro hmem
      rcases List.mem_map.mp hmem with ⟨e, he, heq⟩
      have hnot := dedupAux_not_mem_seen rest _ e he
      apply hnot
      rw [heq]
      exact List.mem_cons_self _ _

/-- C7 counterexample: a node found both by the search-bar pass and by
the input pass gets two catalog entries, not one — `generateUniqueId`
embeds the pass kind, so the key of the `"search"` entry differs from
the key of the `"input"` entry and the deduplication keeps both. -/
theorem shared_node_catalogued_twice :
    ((getAllInteractiveElements [sharedNode] [] [] [sharedNode]).countP
      fun e => decide (e.node = sharedNode)) = 2 := by decide

/-- C7 (amended): the catalog never contains two entries with the same
`uniqueKey` (the first occurrence is kept); a node found by two passes
of different kinds, however, receives one entry per pass, because the
pass kind is part of the key. -/
theorem catalog_uniqueIds_nodup
    (searchNodes buttonNodes linkNodes inputNodes : List DomNode) :
    ((getAllInteractiveElements searchNodes buttonNodes linkNodes
      inputNodes).map CatalogEntry.uniqueId).Nodup :=
  dedupAux_uniqueIds_nodup _ []

/-- `includes` is preserved by extending the searched string on the
right. -/
theorem includes_append (d e x : List Char) (h : includes d x = true) :
    includes (d ++ e) x = true := by
  unfold includes at h ⊢
  rcases of_decide_eq_true h with ⟨s, t, hst⟩
  exact decide_eq_true ⟨s, t ++ e, by rw [← hst]; simp⟩

/-- A guarded single-constant score contribution is monotone in the
description. -/
theorem ifScore_mono (b : Bool) (d e x : List Char) (q : ℚ) (hq : 0 ≤ q) :
    (if b && includes d x then q else 0)
      ≤ (if b && includes (d ++ e) x then q else 0) := by
  by_cases h : (b && includes d x) = true
  · have hparts : b = true ∧ includes d x = true := by simpa using h
    have h2 : (b && includes (d ++ e) x) = true := by
      simp [hparts.1, includes_append d e x hparts.2]
    rw [if_pos h, if_pos h2]
  · rw [if_neg h]
    by_cases h2 : (b && includes (d ++ e) x) = true
    · rw [if_pos h2]; exact hq
    · rw [if_neg h2]

/-- An unguarded single-constant score contribution is monotone in the
description. -/
theorem ifScore_mono' (d e x : List Char) (q : ℚ) (hq : 0 ≤ q) :
    (if includes d x then q else 0)
      ≤ (if includes (d ++ e) x then q else 0) := by
  by_cases h : includes d x = true
  · rw [if_pos h, if_pos (includes_append d e x h)]
  · rw [if_neg h]
    by_cases h2 : includes (d ++ e) x = true
    · rw [if_pos h2]; exact hq
    · rw [if_neg h2]

/-- When the element has no display text, the text contribution is
zero. -/
theorem textScore_empty (el : PageElement) (d : List Char)
    (h : elementTextOf el = []) : textScore el d = 0 := by
  simp [textScore, h]

/-- With at most five partially matching words, the text contribution is
at most 0.5. -/
theorem textScore_le_half (el : PageElement) (d : List Char)
    (h : matchedWordCount (elementTextOf el) d ≤ 5) :
    textScore el d ≤ 1/2 := by
  simp only [textScore]
  by_cases h1 :
      (!(elementTextOf el).isEmpty && includes d (elementTextOf el)) = true
  · rw [if_pos h1]
  · rw [if_neg h1]
    by_cases h2 : (!(elementTextOf el).isEmpty) = true
    · rw [if_pos h2]
      have hc : ((matchedWordCount (elementTextOf el) d : ℚ)) ≤ 5 := by
        exact_mod_cast h
      nlinarith
    · rw [if_neg h2]
      norm_num

/-- Appending the element's display text makes the full-containment
branch fire. -/
theorem textScore_appended (el : PageElement) (d : List Char)
    (hne : elementTextOf el ≠ []) :
    textScore el (d ++ ' ' :: elementTextOf el) = 1/2 := by
  have hinc : includes (d ++ ' ' :: elementTextOf el) (elementTextOf el)
      = true :=
    decide_eq_true ⟨d ++ [' '], [], by simp⟩
  have hne' : (elementTextOf el).isEmpty = false := by
    cases htl : elementTextOf el with
    | nil => exact absurd htl hne
    | cons a l => rfl
  simp only [textScore]
  rw [if_pos (by simp [hne', hinc])]

/-- C8 counterexample: for `sixWordButton`, appending its exact full
display text to `sixWordDescription` lowers `calculateMatchScore` from
0.6 to 0.5 — six partial word matches (0.1 each) are worth more than
the 0.5 full-containment bonus that replaces them. -/
theorem append_text_decreases_score :
    calculateMatchScore sixWordButton
      (sixWordDescription ++ ' ' :: elementTextOf sixWordButton)
      < calculateMatchScore sixWordButton sixWordDescription := by
  have hB : calculateMatchScore sixWordButton sixWordDescription
      = 3/5 := by
    have h1 : typeScore sixWordButton sixWordDescription = 0 := rfl
    have h2 : textScore sixWordButton sixWordDescription
        = ((6:ℕ):ℚ) * (1/10) := rfl
    have h3 : ariaScore sixWordButton sixWordDescription = 0 := rfl
    have h4 : placeholderScore sixWordButton sixWordDescription = 0 := rfl
    have h5 : searchBonus sixWordButton sixWordDescription = 0 := rfl
    rw [calculateMatchScore, h1, h2, h3, h4, h5]
    norm_num [min_def]
  have hA : calculateMatchScore sixWordButton
      (sixWordDescription ++ ' ' :: elementTextOf sixWordButton)
      = 1/2 := by
    have h1 : typeScore sixWordButton
        (sixWordDescription ++ ' ' :: elementTextOf sixWordButton)
        = 0 := rfl
    have h2 : textScore sixWordButton
        (sixWordDescription ++ ' ' :: elementTextOf sixWordButton)
        = 1/2 := rfl
    have h3 : ariaScore sixWordButton
        (sixWordDescription ++ ' ' :: elementTextOf sixWordButton)
        = 0 := rfl
    have h4 : placeholderScore sixWordButton
        (sixWordDescription ++ ' ' :: elementTextOf sixWordButton)
        = 0 := rfl
    have h5 : searchBonus sixWordButton
        (sixWordDescription ++ ' ' :: elementTextOf sixWordButton)
        = 0 := rfl
    rw [calculateMatchScore, h1, h2, h3, h4, h5]
    norm_num [min_def]
  rw [hA, hB]
  norm_num

/-- C8 (amended): appending the element's exact full display text to the
description never decreases its `calculateMatchScore`, provided the
original description has at most five partially matching words (so that
the 0.1-per-word contribution it gives up does not exceed the 0.5
full-containment bonus it gains). -/
theorem score_monotone_append_text (el : PageElement) (d : List Char)
    (h : matchedWordCount (elementTextOf el) d ≤ 5) :
    calculateMatchScore el d
      ≤ calculateMatchScore el (d ++ ' ' :: elementTextOf el) := by
  unfold calculateMatchScore
  apply min_le_min _ le_rfl
  have ht : textScore el d ≤ textScore el (d ++ ' ' :: elementTextOf el) := by
    by_cases hne : elementTextOf el = []
    · rw [textScore_empty el d hne, textScore_empty el _ hne]
    · rw [textScore_appended el d hne]
      exact textScore_le_half el d h
  have htp : typeScore el d
      ≤ typeScore el (d ++ ' ' :: elementTextOf el) := by
    simp only [typeScore]
    exact ifScore_mono' d (' ' :: elementTextOf el) el.kind (3/10)
      (by norm_num)
  have ha : ariaScore el d
      ≤ ariaScore el (d ++ ' ' :: elementTextOf el) := by
    simp only [ariaScore]
    exact ifScore_mono _ d (' ' :: elementTextOf el) _ (2/5) (by norm_num)
  have hp : placeholderScore el d
      ≤ placeholderScore el (d ++ ' ' :: elementTextOf el) := by
    simp only [placeholderScore]
    exact ifScore_mono _ d (' ' :: elementTextOf el) _ (3/10) (by norm_num)
  have hs : searchBonus el d
      ≤ searchBonus el (d ++ ' ' :: elementTextOf el) := by
    simp only [searchBonus]
    exact ifScore_mono _ d (' ' :: elementTextOf el) _ (2/5) (by norm_num)
  exact add_le_add (add_le_add (add_le_add (add_le_add htp ht) ha) hp) hs

/-- Witness for the amended C8 at a concrete element and description. -/
theorem score_monotone_append_text_witness :
    matchedWordCount (elementTextOf okButton) "press ok".data ≤ 5
    ∧ calculateMatchScore okButton "press ok".data
      ≤ calculateMatchScore okButton
        ("press ok".data ++ ' ' :: elementTextOf okButton) :=
  ⟨by decide,
   score_monotone_append_text okButton "press ok".data (by decide)⟩

/-- C9: `validateAction` reports `safe == false` for every file input,
whatever the action type, wherever the element is with respect to the
document — every path through the validation rejects it without a
`needsConfirmation` escape. -/
theorem file_input_never_safe (actionType : List Char)
    (el : TargetElement)
    (htag : jsToLower el.tagName = "input".data)
    (hty : el.elType.map jsToLower = some "file".data) :
    (validateAction actionType (some el)).safe = false := by
  by_cases hw : actionType ∈ safeActions
  · simp only [validateAction]
    rw [if_neg (not_not_intro hw)]
    rw [if_neg (fun hcon => Option.noConfusion hcon.2)]
    by_cases hd : el.inDocument = true
    · simp [hd, htag, hty]
    · have hd' : el.inDocument = false := by
        cases hx : el.inDocument
        · rfl
        · exact absurd hx hd
      simp [hd']
  · simp [validateAction, hw]

/-- Witness for C9: a click on a file input attached to the document is
rejected. -/
theorem file_input_never_safe_witness :
    jsToLower fileInputElement.tagName = "input".data
    ∧ fileInputElement.elType.map jsToLower = some "file".data
    ∧ (validateAction "click".data (some fileInputElement)).safe = false :=
  ⟨by decide, by decide,
   file_input_never_safe "click".data fileInputElement (by decide)
     (by decide)⟩

/-- C10: a successful `executeType` on a non-null element always leaves
the element's value equal to exactly the text argument — the prior value
is fully replaced, and the `options.clear` flag has no observable effect
on the final value. -/
theorem executeType_overwrites (el : InputElement) (text : List Char)
    (options : TypeOptions) :
    (executeType (some el) text options).2.success = true
    ∧ (executeType (some el) text options).1
        = some { el with focused := true, value := text }
    ∧ ∀ c1 c2 : Option Bool,
        (executeType (some el) text { options with clear := c1 }).1
          = (executeType (some el) text { options with clear := c2 }).1 := by
  have key : ∀ o : TypeOptions, (executeType (some el) text o).1
      = some { el with focused := true, value := text } := by
    intro o
    simp only [executeType]
    split <;> rfl
  exact ⟨rfl, key options, fun c1 c2 => (key _).trans (key _).symm⟩
